import Mathlib

/-!
Shallow embedding of the Easy_Paper_Reader front-end (React/JSX sources under
`src/web/`).  The data model and event handlers are translated from
`src/web/src/pages/Dashboard.jsx` (which holds the `Dashboard`, `Reader` and
`App` components), `src/web/src/components/features/dashboard/PaperItem.jsx`
and the `CitationCard` component.  React `useState` setters become
record-field replacement; JSX event handlers become a step function on an
explicit interaction-state record; rendering conditions become Boolean
functions of the state.
-/

namespace EasyPaperReader

/-- Citation reference record, shape of the `citation` field of the mock
sentence data (Dashboard.jsx lines 137-142). -/
structure Citation where
  id : String
  title : String
  authors : String
  abstract : String
deriving DecidableEq, Repr

/-- Sentence unit of the mock document (Dashboard.jsx, `MOCK_CONTENT`
entries): identifier, source text, translation, optional citation. -/
structure Sentence where
  id : Nat
  en : String
  cn : String
  citation : Option Citation
deriving DecidableEq, Repr

/-- The citation object embedded in sentence 3 of `MOCK_CONTENT`
(Dashboard.jsx lines 137-142). -/
def ref1 : Citation :=
  { id := "ref-1"
    title := "Neural Machine Translation by Jointly Learning to Align and Translate"
    authors := "Bahdanau et al., 2014"
    abstract := "This paper introduces the attention mechanism in RNNs, allowing the model to search for parts of a source sentence that are relevant to predicting a target word." }

/-- First mock sentence (Dashboard.jsx lines 121-126). -/
def sentence1 : Sentence :=
  { id := 1
    en := "The dominant sequence transduction models are based on complex recurrent or convolutional neural networks that include an encoder and a decoder."
    cn := "主流的序列转导模型基于复杂的循环神经网络或卷积神经网络，这些网络包含一个编码器和一个解码器。"
    citation := none }

/-- Second mock sentence (Dashboard.jsx lines 127-132). -/
def sentence2 : Sentence :=
  { id := 2
    en := "The best performing models also connect the encoder and decoder through an attention mechanism."
    cn := "表现最好的模型还通过注意力机制连接编码器和解码器。"
    citation := none }

/-- Third mock sentence, carrying citation `ref-1`
(Dashboard.jsx lines 133-143). -/
def sentence3 : Sentence :=
  { id := 3
    en := "We propose a new simple network architecture, the Transformer, based solely on attention mechanisms, dispensing with recurrence and convolutions entirely [1]."
    cn := "我们提出了一种新的简单网络架构——Transformer，它完全基于注意力机制，彻底摒弃了循环和卷积 [1]。"
    citation := some ref1 }

/-- The fixed document rendered by the Reader view
(Dashboard.jsx lines 120-144, `MOCK_CONTENT`). -/
def MOCK_CONTENT : List Sentence := [sentence1, sentence2, sentence3]

/-- The two side-panel tabs of the Reader (Dashboard.jsx lines 169-180:
the tab buttons write the strings used at lines 238 and 259). -/
inductive Tab where
  | translation : Tab
  | chat : Tab
deriving DecidableEq, Repr

/-- Interaction state of one Reader view instance.  `activeTab` and
`activeCitation` are declared by `useState` in the source (Dashboard.jsx
lines 149-150).  `hoveredSentence` and `showGuide` are referenced by the
render but never declared there; following the spec (§3 interaction state
and the §9 note that they are intended local state: hover id and
onboarding-banner visibility) they are modelled as two further state
slices. -/
structure ReaderState where
  activeTab : Tab
  activeCitation : Option Citation
  hoveredSentence : Option Nat
  showGuide : Bool
deriving DecidableEq, Repr

/-- `setActiveTab` from `useState` (Dashboard.jsx line 149): replaces the
active-tab slice, leaves every other slice unchanged. -/
def setActiveTab (t : Tab) (s : ReaderState) : ReaderState :=
  { s with activeTab := t }

/-- `setActiveCitation` from `useState` (Dashboard.jsx line 150). -/
def setActiveCitation (c : Option Citation) (s : ReaderState) : ReaderState :=
  { s with activeCitation := c }

/-- Modelled from the spec: `setHoveredSentence` is the setter of the
hover-identifier state slice, whose `useState` declaration is missing from
the Reader source although the handlers at Dashboard.jsx lines 218, 219
and 248 call it; spec §4.1 `setHover(identifier | none)` replaces the
current hovered identifier. -/
def setHoveredSentence (v : Option Nat) (s : ReaderState) : ReaderState :=
  { s with hoveredSentence := v }

/-- Modelled from the spec: `setShowGuide` is the setter of the
onboarding-banner visibility flag, missing from the Reader source though
called at Dashboard.jsx lines 192 and 198. -/
def setShowGuide (b : Bool) (s : ReaderState) : ReaderState :=
  { s with showGuide := b }

/-- Modelled from the spec: `handleCitationClick` is referenced at
Dashboard.jsx line 224 but never declared; spec §9 says it is the citation
setter and spec §4.2 says opening sets the clicked reference as the single
active citation. -/
def handleCitationClick (c : Citation) (s : ReaderState) : ReaderState :=
  setActiveCitation (some c) s

/-- `openCitation` of spec §4.2: in the source it is the citation-marker
click path (`handleCitationClick`). -/
def openCitation (c : Citation) (s : ReaderState) : ReaderState :=
  handleCitationClick c s

/-- `closeCitation` of spec §4.2: the `onClose` handler of the popover
(Dashboard.jsx line 203) runs `setActiveCitation(null)`. -/
def closeCitation (s : ReaderState) : ReaderState :=
  setActiveCitation none s

/-- User-interaction events of the Reader view, one constructor per JSX
handler binding: `mainEnter`/`mainLeave` are the `onMouseEnter` /
`onMouseLeave` of a main-pane sentence span (Dashboard.jsx lines 218-219);
`sideEnter` is the `onMouseEnter` of a side-panel entry (line 248);
`sideLeave` is a pointer-leave on a side-panel entry, for which the JSX
binds no handler (lines 244-249); `tabSelect` are the tab buttons
(lines 170, 176); `citationClick` is a click on the citation marker of a
sentence (line 224, with `stopPropagation`); `citationClose` is the
popover close action (line 203); `guideDismiss` are the banner buttons
(lines 192, 198). -/
inductive ReaderEvent where
  | mainEnter (id : Nat) : ReaderEvent
  | mainLeave : ReaderEvent
  | sideEnter (id : Nat) : ReaderEvent
  | sideLeave : ReaderEvent
  | tabSelect (t : Tab) : ReaderEvent
  | citationClick (sen : Sentence) : ReaderEvent
  | citationClose : ReaderEvent
  | guideDismiss : ReaderEvent
deriving DecidableEq, Repr

/-- One synchronous state transition per interaction event, following the
JSX handlers cited on `ReaderEvent`.  A `sideLeave` has no bound handler,
so the state is returned unchanged.  A `citationClick` on a sentence
without a citation cannot occur in the UI (the marker is only rendered
when `sentence.citation` is non-null, line 222); it is a no-op here. -/
def step (s : ReaderState) : ReaderEvent → ReaderState
  | .mainEnter i => setHoveredSentence (some i) s
  | .mainLeave => setHoveredSentence none s
  | .sideEnter i => setHoveredSentence (some i) s
  | .sideLeave => s
  | .tabSelect t => setActiveTab t s
  | .citationClick sen =>
      match sen.citation with
      | some c => handleCitationClick c s
      | none => s
  | .citationClose => closeCitation s
  | .guideDismiss => setShowGuide false s

/-- Run a finite sequence of interaction events from a state. -/
def run (s : ReaderState) (es : List ReaderEvent) : ReaderState :=
  es.foldl step s

/-- Initial Reader state: `useState` with initial values `translation` and `null`
(Dashboard.jsx lines 149-150); hover starts empty and the guide visible,
per the modelled slices. -/
def readerInit : ReaderState :=
  { activeTab := Tab.translation
    activeCitation := none
    hoveredSentence := none
    showGuide := true }

/-- A hover event in the sense of spec §4.1: a `setHover` call issued from
either pane (enter with an identifier, or the main-pane leave with none). -/
def isHoverEvent : ReaderEvent → Bool
  | .mainEnter _ => true
  | .mainLeave => true
  | .sideEnter _ => true
  | _ => false

/-- The argument the hover event passes to `setHoveredSentence`
(Dashboard.jsx lines 218, 219, 248); `none` for events that do not call
the hover setter. -/
def hoverArg : ReaderEvent → Option Nat
  | .mainEnter i => some i
  | .sideEnter i => some i
  | _ => none

/-- Main-pane highlight condition for one sentence span
(Dashboard.jsx line 216: the `bg-blue-100` class is applied exactly when
`hoveredSentence === sentence.id`). -/
def highlightedMain (s : ReaderState) (sen : Sentence) : Bool :=
  s.hoveredSentence = some sen.id

/-- Side-panel highlight condition for one translation entry
(Dashboard.jsx line 247: the `bg-blue-50` class is applied exactly when
`hoveredSentence === item.id`). -/
def highlightedSide (s : ReaderState) (sen : Sentence) : Bool :=
  s.hoveredSentence = some sen.id

/-- The fields the citation popover renders, in order (CitationCard
component: `data.title`, `data.authors`, `data.abstract`). -/
def citationCardFields (data : Citation) : List String :=
  [data.title, data.authors, data.abstract]

/-- The popover rendering condition (Dashboard.jsx line 203:
`activeCitation && <CitationCard data={activeCitation} ... />`): the
CitationCard is mounted exactly when `activeCitation` is non-null, with
that citation as its data. -/
def renderedPopover (s : ReaderState) : Option Citation :=
  s.activeCitation

/-! ### Identifier scoping of the Reader component

The Reader function body (Dashboard.jsx lines 146-323) declares a fixed,
syntactically evident set of local identifiers; its JSX render references
a further set.  Both sets are transcribed here so that the scoping of the
render can be stated: a referenced identifier that is neither a local
declaration nor a module import is unbound, and evaluating it at render
time throws a `ReferenceError`. -/

/-- Identifiers declared inside the Reader component body
(Dashboard.jsx lines 147-150: `navigate`, `id`, `activeTab`,
`setActiveTab`, `activeCitation`, `setActiveCitation`) together with the
module-level imports usable there (lines 112-118). -/
def readerScopeIdents : List String :=
  ["navigate", "id", "activeTab", "setActiveTab", "activeCitation", "setActiveCitation",
   "React", "useState", "useNavigate", "useParams",
   "ArrowLeft", "MessageSquare", "Languages", "Share2", "Download",
   "ChevronRight", "Play", "CheckCircle2", "X",
   "CitationCard", "CodeBlock", "MOCK_CONTENT"]

/-- Free identifiers referenced by the Reader render (Dashboard.jsx
lines 152-322), each with a citing line: `showGuide` (188), `setShowGuide`
(192), `hoveredSentence` (216), `setHoveredSentence` (218),
`handleCitationClick` (224), beside the declared ones. -/
def readerRenderIdents : List String :=
  ["navigate", "id", "activeTab", "setActiveTab", "activeCitation", "setActiveCitation",
   "showGuide", "setShowGuide", "hoveredSentence", "setHoveredSentence",
   "handleCitationClick", "MOCK_CONTENT", "CitationCard", "CodeBlock",
   "ArrowLeft", "MessageSquare", "Languages", "Share2", "Download",
   "ChevronRight", "Play", "CheckCircle2", "X"]

/-! ### Dashboard: paper listing, navigation and the upload affordance -/

/-- Paper record of the dashboard listing (Dashboard.jsx lines 17-21,
`recentPapers` entries). -/
structure Paper where
  id : Nat
  title : String
  date : String
  status : String
  tags : List String
deriving DecidableEq, Repr

/-- The static listing data (Dashboard.jsx lines 17-21). -/
def recentPapers : List Paper :=
  [{ id := 1, title := "Deep Residual Learning for Image Recognition",
     date := "2 hours ago", status := "ready", tags := ["CV", "ResNet"] },
   { id := 2, title := "Attention Is All You Need",
     date := "Yesterday", status := "ready", tags := ["NLP", "Transformer"] },
   { id := 3, title := "A Survey on Large Language Models",
     date := "3 days ago", status := "processing", tags := ["LLM", "Survey"] }]

/-- The two status badges a listing row can show (PaperItem.jsx
lines 23-32). -/
inductive Badge where
  | ready : Badge
  | processing : Badge
deriving DecidableEq, Repr

/-- Badges rendered by `PaperItem` for a status string: two independent
conditional renders, `status === "ready" && ...` (PaperItem.jsx line 23)
and `status === "processing" && ...` (line 28); any other value renders
neither. -/
def paperItemBadges (status : String) : List Badge :=
  (if status = "ready" then [Badge.ready] else []) ++
  (if status = "processing" then [Badge.processing] else [])

/-- The visible content of one rendered listing row (PaperItem.jsx: title
at line 11, date at line 13, one chip per tag at lines 14-16, badges at
lines 23-32).  A total function of the record: rendering never faults,
whatever the status value. -/
def paperItemRow (p : Paper) : String × String × List String × List Badge :=
  (p.title, p.date, p.tags, paperItemBadges p.status)

/-- `handlePaperClick` (Dashboard.jsx lines 13-15): clicking a paper row
issues a navigation request to the template string `/read/${id}`. -/
def handlePaperClickTarget (id : Nat) : String :=
  "/read/" ++ toString id

/-- Splits a character list at `/`, accumulating the current segment in
reverse. -/
def segsAux (cur : List Char) (acc : List String) : List Char → List String
  | [] => (String.mk cur.reverse :: acc).reverse
  | c :: rest =>
      if c = '/' then segsAux [] (String.mk cur.reverse :: acc) rest
      else segsAux (c :: cur) acc rest

/-- Path-segment split used by the route matcher: the non-empty segments
of a `/`-separated path. -/
def pathSegments (path : String) : List String :=
  (segsAux [] [] path.toList).filter (fun seg => seg ≠ "")

/-- The `App` route table (App component, `/read/:id` route): a path
matches the reader route exactly when its segments are `read` followed by
one segment, and that segment is the `id` path parameter `useParams`
recovers in the Reader (Dashboard.jsx line 148); no validation against
any catalog is performed on it. -/
def matchReadRoute (path : String) : Option String :=
  match pathSegments path with
  | ["read", x] => some x
  | _ => none

/-- The Reader page header echoing the id parameter (Dashboard.jsx
line 160: `Attention Is All You Need (Paper ID: {id})`). -/
def readerHeaderTitle (id : String) : String :=
  "Attention Is All You Need (Paper ID: " ++ id ++ ")"

/-- Dashboard transient state: only the `isDragging` flag
(Dashboard.jsx line 10). -/
structure DashboardState where
  isDragging : Bool
deriving DecidableEq, Repr

/-- Drag-and-drop events on the upload target (Dashboard.jsx lines 78-80).
A drop carries the file names the browser would hand over. -/
inductive DragEvent where
  | dragOver : DragEvent
  | dragLeave : DragEvent
  | fileDrop (files : List String) : DragEvent
deriving DecidableEq, Repr

/-- Observable effects of a drag handler: alerts surfaced to the user and
files accessed (read, validated or transmitted). -/
structure DragEffects where
  alerts : List String
  filesAccessed : List String
deriving DecidableEq, Repr

/-- The upload-drop notification text (Dashboard.jsx line 80). -/
def uploadAlertMsg : String :=
  "Backend integration needed for file upload"

/-- The three drag handlers (Dashboard.jsx lines 78-80): `onDragOver`
sets the flag, `onDragLeave` clears it, `onDrop` clears it and raises the
blocking `alert`; no handler touches the dropped files. -/
def dragStep (s : DashboardState) : DragEvent → DashboardState × DragEffects
  | .dragOver => ({ s with isDragging := true }, { alerts := [], filesAccessed := [] })
  | .dragLeave => ({ s with isDragging := false }, { alerts := [], filesAccessed := [] })
  | .fileDrop _ => ({ s with isDragging := false },
      { alerts := [uploadAlertMsg], filesAccessed := [] })


/-- A main-pane hover event: one bound by the sentence spans of the
main reading pane (Dashboard.jsx lines 218-219). -/
def mainHoverEvent : ReaderEvent → Bool
  | .mainEnter _ => true
  | .mainLeave => true
  | _ => false

/-- Events that cannot move the hover away from identifier `k`: everything
except a main-pane enter or leave and a side-panel enter of a different
identifier. -/
def keepsHoverOf (k : Nat) : ReaderEvent → Bool
  | .mainEnter _ => false
  | .mainLeave => false
  | .sideEnter j => j = k
  | _ => true

/-! ## Theorems settling the claims -/

set_option maxRecDepth 4000 in
/-- Sentence identifiers are unique within the mock document, the pairing
invariant of spec §3. -/
theorem mockContent_id_inj :
    ∀ s1 ∈ MOCK_CONTENT, ∀ s2 ∈ MOCK_CONTENT, s1.id = s2.id → s1 = s2 := by
  decide

/-- Appending one event to a run takes one more step. -/
theorem run_append_single (st : ReaderState) (es : List ReaderEvent) (e : ReaderEvent) :
    run st (es ++ [e]) = step (run st es) e := by
  simp [run, List.foldl_append]

/-- C1: for every finite sequence of hover events from either pane, at
most one sentence unit is highlighted at any instant, and the highlighted
identifier equals the argument of the most recent hover event (none after
a hover-leave). -/
theorem C1_hover_at_most_one_latest (st : ReaderState) (es : List ReaderEvent)
    (e : ReaderEvent) (hall : ∀ x ∈ es ++ [e], isHoverEvent x = true) :
    (∀ s1 ∈ MOCK_CONTENT, ∀ s2 ∈ MOCK_CONTENT,
        highlightedMain (run st (es ++ [e])) s1 = true →
        highlightedMain (run st (es ++ [e])) s2 = true → s1 = s2)
    ∧ (run st (es ++ [e])).hoveredSentence = hoverArg e := by
  have he : isHoverEvent e = true := hall e (by simp)
  rw [run_append_single]
  cases e with
  | mainEnter i =>
      refine ⟨fun s1 h1 s2 h2 hh1 hh2 => ?_, rfl⟩
      simp [highlightedMain, step, setHoveredSentence] at hh1 hh2
      exact mockContent_id_inj s1 h1 s2 h2 (hh1.symm.trans hh2)
  | sideEnter i =>
      refine ⟨fun s1 h1 s2 h2 hh1 hh2 => ?_, rfl⟩
      simp [highlightedMain, step, setHoveredSentence] at hh1 hh2
      exact mockContent_id_inj s1 h1 s2 h2 (hh1.symm.trans hh2)
  | mainLeave =>
      refine ⟨fun s1 h1 s2 h2 hh1 hh2 => ?_, rfl⟩
      simp [highlightedMain, step, setHoveredSentence] at hh1
  | sideLeave => simp [isHoverEvent] at he
  | tabSelect t => simp [isHoverEvent] at he
  | citationClick sen => simp [isHoverEvent] at he
  | citationClose => simp [isHoverEvent] at he
  | guideDismiss => simp [isHoverEvent] at he

theorem C1_witness :
    ([ReaderEvent.mainEnter 1] ++ [ReaderEvent.mainLeave]).all isHoverEvent = true
    ∧ (run readerInit ([ReaderEvent.mainEnter 1] ++ [ReaderEvent.mainLeave])).hoveredSentence
        = hoverArg ReaderEvent.mainLeave :=
  ⟨by decide,
   (C1_hover_at_most_one_latest readerInit [ReaderEvent.mainEnter 1]
      ReaderEvent.mainLeave (by decide)).2⟩

/-- C2: the claimed totality assertion fails on the source: the Reader
render references `hoveredSentence`, `showGuide` and
`handleCitationClick`, none of which is declared in the component scope,
so evaluating the render throws a `ReferenceError` instead of being a
total fault-free function. -/
theorem C2_reader_unbound_render_idents :
    ("hoveredSentence" ∈ readerRenderIdents ∧ "hoveredSentence" ∉ readerScopeIdents)
    ∧ ("showGuide" ∈ readerRenderIdents ∧ "showGuide" ∉ readerScopeIdents)
    ∧ ("handleCitationClick" ∈ readerRenderIdents ∧ "handleCitationClick" ∉ readerScopeIdents) := by
  decide

/-- C3: clicking the citation marker of sentence 3 sets the popover to
exactly citation `ref-1` (whose card shows its title, author string and
abstract), changes no other state slice (the marker click does not reach
the own handlers of the sentence), and leaves the hovered sentence unchanged. -/
theorem C3_citation_marker_click (st : ReaderState) :
    sentence3.citation = some ref1
    ∧ step st (ReaderEvent.citationClick sentence3) = { st with activeCitation := some ref1 }
    ∧ renderedPopover (step st (ReaderEvent.citationClick sentence3)) = some ref1
    ∧ citationCardFields ref1 =
        ["Neural Machine Translation by Jointly Learning to Align and Translate",
         "Bahdanau et al., 2014",
         "This paper introduces the attention mechanism in RNNs, allowing the model to search for parts of a source sentence that are relevant to predicting a target word."]
    ∧ (step st (ReaderEvent.citationClick sentence3)).hoveredSentence = st.hoveredSentence :=
  ⟨rfl, rfl, rfl, rfl, rfl⟩

/-- C4: `openCitation` replaces any currently-open citation
(last-write-wins, no stacking), and `closeCitation` clears the popover
unconditionally, whatever citation was open. -/
theorem C4_open_replaces_close_clears (st : ReaderState) (c1 c2 : Citation) :
    (openCitation c1 st).activeCitation = some c1
    ∧ openCitation c2 (openCitation c1 st) = openCitation c2 st
    ∧ renderedPopover (openCitation c2 (openCitation c1 st)) = some c2
    ∧ (closeCitation st).activeCitation = none
    ∧ renderedPopover (closeCitation (openCitation c1 st)) = none :=
  ⟨rfl, rfl, rfl, rfl, rfl⟩

/-- C5: `setActiveTab` only writes the active-tab slice: hover and
citation state are untouched, and switching translation → chat →
translation after a pointer-leave leaves the hover cleared. -/
theorem C5_tab_switch_frame (st : ReaderState) (t : Tab) :
    (setActiveTab t st).hoveredSentence = st.hoveredSentence
    ∧ (setActiveTab t st).activeCitation = st.activeCitation
    ∧ (run st [ReaderEvent.mainLeave, ReaderEvent.tabSelect Tab.chat,
               ReaderEvent.tabSelect Tab.translation]).hoveredSentence = none :=
  ⟨rfl, rfl, rfl⟩

/-- C6: hover-enter on identifier `k` from the main pane and from the side
panel produce the identical state, and in either case the unit highlighted
on both sides is exactly the one with identifier `k`. -/
theorem C6_hover_symmetry (k : Nat) (hk : k ∈ MOCK_CONTENT.map Sentence.id)
    (st : ReaderState) :
    step st (ReaderEvent.mainEnter k) = step st (ReaderEvent.sideEnter k)
    ∧ ∀ sen : Sentence,
        (highlightedMain (step st (ReaderEvent.mainEnter k)) sen = true ↔ sen.id = k)
        ∧ (highlightedSide (step st (ReaderEvent.mainEnter k)) sen = true ↔ sen.id = k)
        ∧ (highlightedMain (step st (ReaderEvent.sideEnter k)) sen = true ↔ sen.id = k)
        ∧ (highlightedSide (step st (ReaderEvent.sideEnter k)) sen = true ↔ sen.id = k) := by
  refine ⟨rfl, fun sen => ?_⟩
  simp [highlightedMain, highlightedSide, step, setHoveredSentence, eq_comm]

theorem C6_witness :
    (1 ∈ MOCK_CONTENT.map Sentence.id)
    ∧ step readerInit (ReaderEvent.mainEnter 1) = step readerInit (ReaderEvent.sideEnter 1) :=
  ⟨by decide, (C6_hover_symmetry 1 (by decide) readerInit).1⟩

/-- C7: a paper whose status is neither `ready` nor `processing` still
renders its listing row (a total function of the record) with no badge,
while the two recognized statuses show exactly their badge. -/
theorem C7_unrecognized_status_no_badge (p : Paper)
    (h1 : p.status ≠ "ready") (h2 : p.status ≠ "processing") :
    (paperItemRow p).2.2.2 = []
    ∧ paperItemBadges "ready" = [Badge.ready]
    ∧ paperItemBadges "processing" = [Badge.processing] := by
  refine ⟨?_, rfl, rfl⟩
  simp [paperItemRow, paperItemBadges, h1, h2]

theorem C7_witness :
    (paperItemRow { id := 9, title := "t", date := "d", status := "draft", tags := [] }).2.2.2 = [] :=
  (C7_unrecognized_status_no_badge
    { id := 9, title := "t", date := "d", status := "draft", tags := [] }
    (by decide) (by decide)).1

/-- C8: clicking a listed paper row with identifier `p.id` issues a
navigation request to the reader route carrying exactly that identifier;
the route matcher recovers it as the `id` path parameter, the header
echoes it, and an identifier absent from any catalog (999) routes just the
same. -/
theorem C8_click_routes_exact_id (p : Paper) (hp : p ∈ recentPapers) :
    matchReadRoute (handlePaperClickTarget p.id) = some (toString p.id)
    ∧ readerHeaderTitle (toString p.id)
        = "Attention Is All You Need (Paper ID: " ++ toString p.id ++ ")"
    ∧ matchReadRoute (handlePaperClickTarget 999) = some "999" := by
  have h3 : p = recentPapers[0] ∨ p = recentPapers[1] ∨ p = recentPapers[2] := by
    simpa [recentPapers] using hp
  rcases h3 with rfl | rfl | rfl <;> exact ⟨by decide, rfl, by decide⟩

theorem C8_witness :
    ({ id := 2, title := "Attention Is All You Need", date := "Yesterday",
       status := "ready", tags := ["NLP", "Transformer"] } : Paper) ∈ recentPapers
    ∧ matchReadRoute (handlePaperClickTarget 2) = some (toString 2) :=
  ⟨by decide,
   (C8_click_routes_exact_id
      { id := 2, title := "Attention Is All You Need", date := "Yesterday",
        status := "ready", tags := ["NLP", "Transformer"] }
      (by decide)).1⟩

/-- C9: a drop on the upload target always raises exactly the blocking
"unimplemented" notification, accesses no file, and clears the drag flag;
drag-over only sets the flag and drag-leave only clears it, neither with
any effect. -/
theorem C9_drop_is_stub (s : DashboardState) (files : List String) :
    dragStep s (DragEvent.fileDrop files)
      = ({ isDragging := false }, { alerts := [uploadAlertMsg], filesAccessed := [] })
    ∧ dragStep s DragEvent.dragOver
      = ({ isDragging := true }, { alerts := [], filesAccessed := [] })
    ∧ dragStep s DragEvent.dragLeave
      = ({ isDragging := false }, { alerts := [], filesAccessed := [] }) :=
  ⟨rfl, rfl, rfl⟩

/-- C10 (as stated) is false: after hovering side-panel entry 1, the trace
`[sideLeave, sideEnter 2]` contains no main-pane enter or leave, yet the
highlight has moved off entry 1 (to entry 2). -/
theorem C10_counterexample :
    [ReaderEvent.sideLeave, ReaderEvent.sideEnter 2].any mainHoverEvent = false
    ∧ (run (step readerInit (ReaderEvent.sideEnter 1))
          [ReaderEvent.sideLeave, ReaderEvent.sideEnter 2]).hoveredSentence ≠ some 1
    ∧ (run (step readerInit (ReaderEvent.sideEnter 1))
          [ReaderEvent.sideLeave, ReaderEvent.sideEnter 2]).hoveredSentence = some 2 := by
  decide

/-- C10 amended: a pointer-leave on a side-panel entry is a no-op on the
whole state (no handler is bound), and after hovering side entry `k` the
highlight persists through every following event that is not a main-pane
enter or leave nor a side-panel enter of a different entry. -/
theorem C10_side_leave_frame (st : ReaderState) (k : Nat) (es : List ReaderEvent)
    (h : ∀ e ∈ es, keepsHoverOf k e = true) :
    (run (step st (ReaderEvent.sideEnter k)) es).hoveredSentence = some k
    ∧ ∀ s2 : ReaderState, step s2 ReaderEvent.sideLeave = s2 := by
  have key : ∀ (l : List ReaderEvent) (s : ReaderState),
      s.hoveredSentence = some k → (∀ e ∈ l, keepsHoverOf k e = true) →
      (run s l).hoveredSentence = some k := by
    intro l
    induction l with
    | nil => intro s hs _; exact hs
    | cons e rest ih =>
        intro s hs hall
        have he : keepsHoverOf k e = true := hall e (List.mem_cons_self e rest)
        have hrest : ∀ x ∈ rest, keepsHoverOf k x = true :=
          fun x hx => hall x (List.mem_cons_of_mem e hx)
        have hrun : run s (e :: rest) = run (step s e) rest := by
          simp [run]
        rw [hrun]
        refine ih (step s e) ?_ hrest
        cases e with
        | mainEnter i => simp [keepsHoverOf] at he
        | mainLeave => simp [keepsHoverOf] at he
        | sideEnter j =>
            simp [keepsHoverOf] at he
            simp [step, setHoveredSentence, he]
        | sideLeave => exact hs
        | tabSelect t => simpa [step, setActiveTab] using hs
        | citationClick sen =>
            cases hc : sen.citation with
            | none => simpa [step, hc] using hs
            | some c =>
                simpa [step, hc, handleCitationClick, setActiveCitation] using hs
        | citationClose => simpa [step, closeCitation, setActiveCitation] using hs
        | guideDismiss => simpa [step, setShowGuide] using hs
  exact ⟨key es (step st (ReaderEvent.sideEnter k)) rfl h, fun s2 => rfl⟩

theorem C10_witness :
    [ReaderEvent.sideLeave, ReaderEvent.tabSelect Tab.chat,
     ReaderEvent.citationClose].all (keepsHoverOf 1) = true
    ∧ (run (step readerInit (ReaderEvent.sideEnter 1))
          [ReaderEvent.sideLeave, ReaderEvent.tabSelect Tab.chat,
           ReaderEvent.citationClose]).hoveredSentence = some 1 :=
  ⟨by decide,
   (C10_side_leave_frame readerInit 1
      [ReaderEvent.sideLeave, ReaderEvent.tabSelect Tab.chat,
       ReaderEvent.citationClose] (by decide)).1⟩

end EasyPaperReader
